import Mathlib

/-
Verification of the autism-detector web backend (src/app.py) against its
natural-language specification.  The request handler `predict`, the biomedical
heuristic, the fusion rule, and the static endpoints are embedded as pure Lean
functions; external library calls (werkzeug secure_filename, the Keras model
forward pass together with image decoding, and json.loads) are oracle
parameters, since their internals are out of scope for the repository.
Python floats are modelled as rationals; the thresholds 0.5, 7.0 and 70.0 are
exactly representable, so the comparisons are faithful.  Non-finite float
literals such as "inf" and "nan" are outside the model of float().
-/

/-- A JSON value, as produced by json.loads. -/
inductive JVal where
  | jnum (q : ℚ)
  | jstr (s : String)
  | jbool (b : Bool)
  | jnull
  | jarr (xs : List JVal)
  | jobj (fields : List (String × JVal))

/-- True exactly on JSON objects (Python dicts, which have a .get method). -/
def JVal.isObj : JVal → Bool
  | .jobj _ => true
  | _ => false

/-- The Python exceptions the biomedical block of app.py can raise:
ValueError from float() on a bad string (carrying the offending text),
TypeError from float() on a non-string non-number, and AttributeError
from calling .get on a non-dict. -/
inductive PyErr where
  | valueError (offending : String)
  | typeError
  | attributeError
deriving DecidableEq, Repr

/-- An uploaded multipart file part: its client-supplied filename and bytes. -/
structure ImageFile where
  filename : String
  bytes : List Nat
deriving DecidableEq, Repr

/-- The parts of a /predict request the handler reads: the optional image
file part and the optional biomedicalData form field. -/
structure Request where
  imageFile : Option ImageFile
  biomedicalData : Option String
deriving DecidableEq, Repr

/-- Observable side effects of the handler, in order: saving the uploaded
image to disk (app.py line 64) and handing the biomedicalData string to
json.loads (line 79). -/
inductive Effect where
  | savedImage (path : String)
  | parsedBio (raw : String)
deriving DecidableEq, Repr

/-- The JSON response of /predict: either the 200 payload of line 125
(image_prediction, biomedical_prediction, combined_prediction, image_path)
or an error payload with its HTTP status and error message. -/
inductive Resp where
  | ok (image_prediction biomedical_prediction : Option String)
       (combined_prediction : String) (image_path : Option String)
  | err (status : Nat) (error : String)
deriving DecidableEq, Repr

/-- HTTP status of a response (the 200 branch of jsonify has no explicit
status, so it is 200). -/
def Resp.status : Resp → Nat
  | .ok _ _ _ _ => 200
  | .err s _ => s

/-- Python truthiness of an optional string (None and the empty string are
falsy), used by lines 77, 109, 116 and 118 of app.py. -/
def truthy : Option String → Bool
  | none => false
  | some s => s != ""

/-- Whether the first character list begins with the second. -/
def headMatch : List Char → List Char → Bool
  | [], _ => true
  | _ :: _, [] => false
  | a :: as, b :: bs => a == b && headMatch as bs

/-- Whether the second character list occurs contiguously in the first. -/
def listContains (needle : List Char) : List Char → Bool
  | [] => needle == []
  | c :: cs => headMatch needle (c :: cs) || listContains needle cs

/-- Python substring membership: needle in hay. -/
def pySubstr (hay needle : String) : Bool :=
  listContains needle.toList hay.toList

/-- Digits to a natural number, most significant first. -/
def digitsVal (ds : List Char) : Nat :=
  ds.foldl (fun a c => a * 10 + (c.toNat - 48)) 0

/-- Python float() on a string: optional surrounding whitespace, optional
sign, a decimal literal with optional fraction and optional exponent.
Returns none when Python float() raises ValueError.  (Digit-group
underscores and the non-finite literals inf and nan are outside the model.) -/
def pyFloat (s : String) : Option ℚ :=
  let cs := s.trim.toList
  let signAndRest : ℚ × List Char :=
    match cs with
    | '+' :: t => (1, t)
    | '-' :: t => (-1, t)
    | _ => (1, cs)
  let sign := signAndRest.1
  let intDigits := signAndRest.2.takeWhile Char.isDigit
  let afterInt := signAndRest.2.dropWhile Char.isDigit
  let fracAndRest : List Char × List Char :=
    match afterInt with
    | '.' :: t => (t.takeWhile Char.isDigit, t.dropWhile Char.isDigit)
    | _ => ([], afterInt)
  let fracDigits := fracAndRest.1
  let afterFrac := fracAndRest.2
  if intDigits = [] ∧ fracDigits = [] then none
  else
    let mantissa : ℚ :=
      sign * ((digitsVal intDigits : ℚ) +
        (digitsVal fracDigits : ℚ) / (10 : ℚ) ^ fracDigits.length)
    match afterFrac with
    | [] => some mantissa
    | c :: t =>
      if c = 'e' ∨ c = 'E' then
        let esignAndRest : ℤ × List Char :=
          match t with
          | '+' :: u => (1, u)
          | '-' :: u => (-1, u)
          | _ => (1, t)
        let expDigits := esignAndRest.2.takeWhile Char.isDigit
        let afterExp := esignAndRest.2.dropWhile Char.isDigit
        if expDigits = [] ∨ afterExp ≠ [] then none
        else some (mantissa * (10 : ℚ) ^ (esignAndRest.1 * (digitsVal expDigits : ℤ)))
      else none

/-- Last binding of a key in an association list (json.loads keeps the last
occurrence of a duplicated object key). -/
def lookupLast (fields : List (String × JVal)) (k : String) : Option JVal :=
  match fields with
  | [] => none
  | (k', v) :: rest =>
    match lookupLast rest k with
    | some w => some w
    | none => if k' = k then some v else none

/-- biomedical_params.get(key, forms the empty string as default), as on
lines 82, 85 and 88 of app.py. -/
def jsonGet (fields : List (String × JVal)) (k : String) : JVal :=
  (lookupLast fields k).getD (.jstr "")

/-- The expression float(x) if x != forms-empty-string else 0.0 of
lines 83, 86 and 89: only the empty Python string takes the 0.0 default;
any other value is passed to float(), which succeeds on numbers and
parsable strings, raises ValueError on other strings, and raises
TypeError on None, lists, dicts (bool is a Python int, so float succeeds). -/
def toFloat (v : JVal) : Except PyErr ℚ :=
  match v with
  | .jstr s =>
    if s = "" then .ok 0
    else
      match pyFloat s with
      | some q => .ok q
      | none => .error (.valueError s)
  | .jnum q => .ok q
  | .jbool b => .ok (if b then 1 else 0)
  | .jnull => .error .typeError
  | .jarr _ => .error .typeError
  | .jobj _ => .error .typeError

/-- The biomedical risk label of app.py line 92. -/
def riskLabel : String := "Potential Autism Risk (based on biomedical data)"

/-- The biomedical low-risk label of app.py line 94. -/
def lowRiskLabel : String := "Low Autism Risk (based on biomedical data)"

/-- The threshold rule of app.py line 91. -/
def biomedicalLabel (eeg heartRate : ℚ) : String :=
  if eeg > 7 ∧ heartRate < 70 then riskLabel else lowRiskLabel

/-- Lines 82-94 of app.py applied to the parsed biomedicalData value:
extract eeg, heartRate and cholesterol with the empty-string default,
convert each with float(), then apply the threshold rule.  A non-object
value raises AttributeError at the first .get call. -/
def bioStage (v : JVal) : Except PyErr String :=
  match v with
  | .jobj fields =>
    match toFloat (jsonGet fields "eeg") with
    | .error pe => .error pe
    | .ok eeg =>
      match toFloat (jsonGet fields "heartRate") with
      | .error pe => .error pe
      | .ok heartRate =>
        match toFloat (jsonGet fields "cholesterol") with
        | .error pe => .error pe
        | .ok _ => .ok (biomedicalLabel eeg heartRate)
  | _ => .error .attributeError

/-- The image decision rule of app.py lines 69-72. -/
def imageLabel (p : ℚ) : String :=
  if p > 0.5 then "Non Autistic" else "Autistic"

/-- The fusion logic of app.py lines 108-121.  final_prediction starts as
the placeholder "Unable to determine", but every branch of the if-chain
overwrites it, so the embedding is the if-chain itself. -/
def fuse (image_result biomedical_result : Option String) : String :=
  if truthy image_result && truthy biomedical_result then
    let i := image_result.getD ""
    let b := biomedical_result.getD ""
    if i == "Autistic" && pySubstr b "Autism Risk" then
      "Highly Suggestive of Autism"
    else if i == "Autistic" || pySubstr b "Autism Risk" then
      "Suggestive of Autism (consider more tests)"
    else
      "Not Autistic"
  else if truthy image_result then
    "Image Prediction: " ++ image_result.getD ""
  else if truthy biomedical_result then
    "Biomedical Prediction: " ++ biomedical_result.getD ""
  else
    "No data provided for prediction."

/-- The error message jsonified for each biomedical exception
(lines 99, 102, 105 of app.py; the Python exception text is abbreviated). -/
def pyErrMsg : PyErr → String
  | .valueError s =>
    "Invalid biomedical data format. Please ensure numerical inputs are numbers: could not convert string to float: " ++ s
  | .typeError =>
    "Error processing biomedical data: float() argument must be a string or a real number"
  | .attributeError =>
    "Error processing biomedical data: object has no attribute \x27get\x27"

/-- Lines 60-73 of app.py: if an image part with a non-empty filename is
present, save it under its sanitized name (oracle sec models
werkzeug.secure_filename) and run preprocessing plus the model forward
pass (oracle infer models lines 66-67 and yields the scalar, or the
exception text when decoding or inference raises).  Returns the optional
label and image path, or the propagated exception, with the effects
performed. -/
def imageStage (sec : String → String) (infer : ImageFile → Except String ℚ) :
    Option ImageFile → Except String (Option String × Option String) × List Effect
  | none => (.ok (none, none), [])
  | some f =>
    if f.filename = "" then (.ok (none, none), [])
    else
      let path := "static/uploads/" ++ sec f.filename
      match infer f with
      | .ok p => (.ok (some (imageLabel p), some path), [.savedImage path])
      | .error e => (.error e, [.savedImage path])

/-- Lines 76-105 of app.py: if the biomedicalData field is present and
truthy, parse it (oracle jl models json.loads, returning the decode-error
text on failure) and run the biomedical block; any JSONDecodeError maps to
the 400 message of line 99 and any other exception to the 400 message of
lines 102 or 105.  Returns the optional biomedical label or the 400 error
message, with the effects performed. -/
def bioStep (jl : String → Except String JVal) :
    Option String → Except String (Option String) × List Effect
  | none => (.ok none, [])
  | some s =>
    if s = "" then (.ok none, [])
    else
      match jl s with
      | .error _ =>
        (.error "Invalid JSON format for biomedical data. Please check your inputs.",
         [.parsedBio s])
      | .ok v =>
        match bioStage v with
        | .error pe => (.error (pyErrMsg pe), [.parsedBio s])
        | .ok label => (.ok (some label), [.parsedBio s])

/-- The /predict handler (app.py lines 44-134).  modelLoaded mirrors the
global model being non-None; when it is false the handler returns 500 at
once (lines 50-52).  Otherwise the image stage runs, any exception it
propagates reaching the outer handler of lines 132-134 as a 500; then the
biomedical stage runs, its failures returning 400; finally the two
optional labels are fused and the 200 payload of lines 125-130 is built. -/
def predict (modelLoaded : Bool) (sec : String → String)
    (infer : ImageFile → Except String ℚ) (jl : String → Except String JVal)
    (req : Request) : Resp × List Effect :=
  if !modelLoaded then (.err 500 "AI model not loaded on server.", [])
  else
    match imageStage sec infer req.imageFile with
    | (.error e, effs) =>
      (.err 500 ("An unexpected server error occurred: " ++ e), effs)
    | (.ok (image_result, img_path), effs) =>
      match bioStep jl req.biomedicalData with
      | (.error msg, effs2) => (.err 400 msg, effs ++ effs2)
      | (.ok biomedical_result, effs2) =>
        (.ok image_result biomedical_result (fuse image_result biomedical_result)
           (img_path.map (fun p => "/" ++ p)),
         effs ++ effs2)

/-- The hardcoded advisory list of app.py lines 138-148. -/
def tips : List String :=
  ["**Early Intervention:** Early diagnosis and intervention can significantly improve outcomes. Therapies like Applied Behavior Analysis (ABA), speech therapy, and occupational therapy can be very beneficial.",
   "**Structured Environment:** Creating a predictable and structured environment can help individuals with autism feel secure and reduce anxiety. Visual schedules and clear routines are often helpful.",
   "**Communication Strategies:** Explore various communication methods, including verbal communication, picture exchange systems (PECS), or augmentative and alternative communication (AAC) devices, to find what works best.",
   "**Sensory Regulation:** Many individuals with autism have sensory sensitivities. Identifying and addressing these sensitivities through sensory diets, calming spaces, or sensory-friendly activities can improve comfort and focus.",
   "**Diet and Nutrition:** While there\x27s no specific \x27autism diet,\x27 some families find that dietary interventions (e.g., gluten-free, casein-free diets) can help with certain symptoms. Consult with a healthcare professional before making significant dietary changes.",
   "**Physical Activity:** Regular physical activity can help with motor skills, sensory integration, and overall well-being. Activities like swimming, yoga, or martial arts can be particularly beneficial.",
   "**Support Networks:** Connect with other families, support groups, and organizations dedicated to autism. Sharing experiences and resources can be invaluable.",
   "**Individualized Education Programs (IEPs):** For children, an individualized education program (IEP) tailored to their specific needs can provide necessary academic and developmental support in school.",
   "**Self-Care for Caregivers:** Caring for an individual with autism can be demanding. Prioritizing self-care, seeking respite, and maintaining personal well-being are crucial for caregivers."]

/-- The GET /healthy-tips handler (app.py lines 136-149); it ignores the
request entirely. -/
def healthy_tips (_req : Request) : List String := tips

/-- The combined strings of the section 4.4 fusion table: the three both-stage
verdicts, the two single-stage prefixed forms for each stage, and the no-data
string. -/
def fusionOutputs : List String :=
  ["Highly Suggestive of Autism",
   "Suggestive of Autism (consider more tests)",
   "Not Autistic",
   "Image Prediction: Autistic",
   "Image Prediction: Non Autistic",
   "Biomedical Prediction: " ++ riskLabel,
   "Biomedical Prediction: " ++ lowRiskLabel,
   "No data provided for prediction."]

/-- Helper: the two biomedical labels are distinct strings. -/
theorem riskLabel_ne_lowRiskLabel : riskLabel ≠ lowRiskLabel := by decide

/-- Helper: when every image part the request carries can be inferred without
an exception (or there is no usable image part), the image stage returns
labels rather than an error. -/
theorem imageStage_ok (sec : String → String) (infer : ImageFile → Except String ℚ)
    (imgf : Option ImageFile)
    (himg : ∀ f, imgf = some f → f.filename ≠ "" → ∃ q, infer f = .ok q) :
    ∃ ir ip effs, imageStage sec infer imgf = (.ok (ir, ip), effs) := by
  rcases imgf with _ | f
  · exact ⟨none, none, [], rfl⟩
  · by_cases hfn : f.filename = ""
    · exact ⟨none, none, [], by simp [imageStage, hfn]⟩
    · obtain ⟨q, hq⟩ := himg f rfl hfn
      exact ⟨some (imageLabel q), some ("static/uploads/" ++ sec f.filename),
        [.savedImage ("static/uploads/" ++ sec f.filename)], by simp [imageStage, hfn, hq]⟩

/-- C1: the fusion of app.py lines 109-115 does NOT follow the section 4.4
table.  Both biomedical labels contain the substring "Autism Risk", so the
membership test on lines 110 and 112 is always true when a biomedical label is
present.  Evaluating the full /predict pipeline at a request whose image stage
yields "Non Autistic" (model scalar 0.6) and whose biomedical stage yields the
low-risk label (eeg 1, heartRate 80) produces "Suggestive of Autism (consider
more tests)" where the table requires "Not Autistic"; likewise the pair
("Autistic", low-risk label) produces "Highly Suggestive of Autism" where the
table requires "Suggestive of Autism (consider more tests)". -/
theorem c1_fusion_diverges_from_table :
    (predict true (fun s => s) (fun _ => .ok 0.6)
        (fun _ => .ok (.jobj [("eeg", .jnum 1), ("heartRate", .jnum 80)]))
        ⟨some ⟨"face.jpg", []⟩, some "eeg 1 heartRate 80"⟩).1 =
      .ok (some "Non Autistic") (some lowRiskLabel)
        "Suggestive of Autism (consider more tests)" (some "/static/uploads/face.jpg") ∧
    fuse (some "Non Autistic") (some lowRiskLabel) ≠ "Not Autistic" ∧
    fuse (some "Autistic") (some lowRiskLabel) ≠
      "Suggestive of Autism (consider more tests)" := by
  have h1 : imageLabel 0.6 = "Non Autistic" := by rw [imageLabel, if_pos]; norm_num
  have h2 : biomedicalLabel 1 80 = lowRiskLabel := by
    rw [biomedicalLabel, if_neg]; norm_num
  have h3 : fuse (some "Non Autistic") (some lowRiskLabel) =
      "Suggestive of Autism (consider more tests)" := by decide
  refine ⟨?_, ?_, by decide⟩
  · simp [predict, imageStage, bioStep, bioStage, jsonGet, lookupLast, toFloat,
      h1, h2, h3]
  · rw [h3]; decide

/-- C2: on numeric inputs the biomedical heuristic returns the risk label
exactly when eeg > 7 and heartRate < 70 and the low-risk label otherwise;
the result does not depend on cholesterol; and missing fields as well as
empty-string fields behave as the value 0. -/
theorem c2_bio_heuristic (e h c c' : ℚ) :
    bioStage (.jobj [("eeg", .jnum e), ("heartRate", .jnum h), ("cholesterol", .jnum c)]) =
      .ok (biomedicalLabel e h) ∧
    (biomedicalLabel e h = riskLabel ↔ e > 7 ∧ h < 70) ∧
    (biomedicalLabel e h = lowRiskLabel ↔ ¬(e > 7 ∧ h < 70)) ∧
    bioStage (.jobj [("eeg", .jnum e), ("heartRate", .jnum h), ("cholesterol", .jnum c)]) =
      bioStage (.jobj [("eeg", .jnum e), ("heartRate", .jnum h), ("cholesterol", .jnum c')]) ∧
    bioStage (.jobj []) = .ok (biomedicalLabel 0 0) ∧
    bioStage (.jobj [("eeg", .jstr ""), ("heartRate", .jstr ""), ("cholesterol", .jstr "")]) =
      .ok (biomedicalLabel 0 0) ∧
    bioStage (.jobj [("heartRate", .jnum h), ("cholesterol", .jnum c)]) =
      .ok (biomedicalLabel 0 h) ∧
    bioStage (.jobj [("eeg", .jnum e), ("cholesterol", .jnum c)]) =
      .ok (biomedicalLabel e 0) ∧
    bioStage (.jobj [("eeg", .jnum e), ("heartRate", .jnum h)]) =
      .ok (biomedicalLabel e h) ∧
    bioStage (.jobj [("eeg", .jstr ""), ("heartRate", .jnum h), ("cholesterol", .jnum c)]) =
      .ok (biomedicalLabel 0 h) := by
  refine ⟨rfl, ?_, ?_, rfl, rfl, rfl, rfl, rfl, rfl, rfl⟩ <;>
    by_cases hc : e > 7 ∧ h < 70 <;>
      simp [biomedicalLabel, hc, riskLabel_ne_lowRiskLabel,
        Ne.symm riskLabel_ne_lowRiskLabel]

/-- C3: the image inference labels a model scalar "Non Autistic" exactly when
it is strictly greater than 0.5 and "Autistic" otherwise; in particular the
scalar 0.5 is labelled "Autistic". -/
theorem c3_image_threshold (p : ℚ) :
    (imageLabel p = "Non Autistic" ↔ p > 0.5) ∧
    (imageLabel p = "Autistic" ↔ ¬ p > 0.5) ∧
    imageLabel (0.5 : ℚ) = "Autistic" := by
  refine ⟨?_, ?_, by rw [imageLabel, if_neg]; norm_num⟩ <;>
    by_cases hp : p > 0.5 <;> simp [imageLabel, hp]

/-- C4: over the nine combinations of fusion inputs (each input absent or one
of its two fixed labels) the fusion is total: it always yields one of the
combined strings of the section 4.4 table and never the initial placeholder
"Unable to determine". -/
theorem c4_fusion_total (ir br : Option String)
    (hir : ir ∈ [none, some "Autistic", some "Non Autistic"])
    (hbr : br ∈ [none, some riskLabel, some lowRiskLabel]) :
    fuse ir br ∈ fusionOutputs ∧ fuse ir br ≠ "Unable to determine" := by
  fin_cases hir <;> fin_cases hbr <;> exact ⟨by decide, by decide⟩

/-- C4 witness: the combination ("Autistic", risk label). -/
theorem c4_fusion_total_witness :
    fuse (some "Autistic") (some riskLabel) ∈ fusionOutputs ∧
    fuse (some "Autistic") (some riskLabel) ≠ "Unable to determine" :=
  c4_fusion_total (some "Autistic") (some riskLabel) (by decide) (by decide)

/-- C5: when exactly one stage produced a label, the combined prediction is
that label behind the prefix of its stage; a request with neither an image
nor biomedical data yields the fixed no-data string and both label fields of
the response are null. -/
theorem c5_single_or_no_stage (l : String) (hl : l ≠ "")
    (sec : String → String) (infer : ImageFile → Except String ℚ)
    (jl : String → Except String JVal) :
    fuse (some l) none = "Image Prediction: " ++ l ∧
    fuse none (some l) = "Biomedical Prediction: " ++ l ∧
    predict true sec infer jl ⟨none, none⟩ =
      (.ok none none "No data provided for prediction." none, []) := by
  refine ⟨?_, ?_, rfl⟩ <;> simp [fuse, truthy, hl]

/-- C5 witness: a single image label, a single biomedical label, and the
empty request. -/
theorem c5_single_or_no_stage_witness :
    fuse (some "Autistic") none = "Image Prediction: " ++ "Autistic" ∧
    fuse none (some "Autistic") = "Biomedical Prediction: " ++ "Autistic" ∧
    predict true id (fun _ => .ok 0) (fun _ => .error "x") ⟨none, none⟩ =
      (.ok none none "No data provided for prediction." none, []) :=
  c5_single_or_no_stage "Autistic" (by decide) id (fun _ => .ok 0) (fun _ => .error "x")

/-- C7: when the model artifact is not loaded, every /predict call returns
HTTP 500 with the fixed error message and performs no side effect at all (no
image save, no preprocessing, no biomedical parsing), independent of the
request body and of all oracle behaviour. -/
theorem c7_model_unavailable (sec : String → String)
    (infer : ImageFile → Except String ℚ) (jl : String → Except String JVal)
    (req : Request) :
    predict false sec infer jl req = (.err 500 "AI model not loaded on server.", []) := rfl

/-- C8: the /healthy-tips handler returns the same fixed list for any two
requests, and that list has exactly 9 elements. -/
theorem c8_healthy_tips (r r' : Request) :
    healthy_tips r = healthy_tips r' ∧ (healthy_tips r).length = 9 := ⟨rfl, rfl⟩

/-- C6 counterexample: the claim says a request whose biomedicalData is
malformed JSON never returns HTTP 500; but when the same request carries an
image part whose decoding raises (app.py line 66), the exception propagates to
the outer handler of lines 132-134 and the response is 500, before the
biomedical field is ever examined. -/
theorem c6_counterexample :
    (predict true (fun s => s) (fun _ => .error "cannot identify image file")
        (fun _ => .error "Expecting value")
        ⟨some ⟨"corrupt.png", [137, 80]⟩, some "eeg: 5"⟩).1 =
      .err 500 "An unexpected server error occurred: cannot identify image file" ∧
    (predict true (fun s => s) (fun _ => .error "cannot identify image file")
        (fun _ => .error "Expecting value")
        ⟨some ⟨"corrupt.png", [137, 80]⟩, some "eeg: 5"⟩).1.status ≠ 400 :=
  ⟨rfl, by decide⟩

/-- C6 amended: provided the image stage does not itself raise (there is no
usable image part, or decoding and inference succeed), a biomedicalData field
that is malformed JSON, or whose processing raises (in particular a value on
which float() fails), yields HTTP 400 with an error field — not 500 and no
silent 0.0 default. -/
theorem c6_amended_bio_errors_400 (sec : String → String)
    (infer : ImageFile → Except String ℚ) (jl : String → Except String JVal)
    (req : Request) (s : String)
    (himg : ∀ f, req.imageFile = some f → f.filename ≠ "" → ∃ q, infer f = .ok q)
    (hs : req.biomedicalData = some s) (hne : s ≠ "")
    (hbad : (∃ e, jl s = .error e) ∨ ∃ v pe, jl s = .ok v ∧ bioStage v = .error pe) :
    ∃ msg, (predict true sec infer jl req).1 = .err 400 msg := by
  obtain ⟨ir, ip, effs, himgok⟩ := imageStage_ok sec infer req.imageFile himg
  have hbio : ∃ msg effs2, bioStep jl req.biomedicalData = (.error msg, effs2) := by
    rw [hs]
    rcases hbad with ⟨e, he⟩ | ⟨v, pe, hv, hpe⟩
    · refine ⟨"Invalid JSON format for biomedical data. Please check your inputs.",
        [.parsedBio s], ?_⟩
      simp [bioStep, hne, he]
    · refine ⟨pyErrMsg pe, [.parsedBio s], ?_⟩
      simp [bioStep, hne, hv, hpe]
  obtain ⟨msg, effs2, hbio⟩ := hbio
  exact ⟨msg, by simp [predict, himgok, hbio]⟩

/-- C6 amended witness: an image-free request whose biomedicalData fails
json.loads. -/
theorem c6_amended_bio_errors_400_witness :
    ∃ msg, (predict true id (fun _ => .ok 0)
        (fun _ => .error "Expecting value") ⟨none, some "eeg colon 5"⟩).1 =
      .err 400 msg :=
  c6_amended_bio_errors_400 id (fun _ => .ok 0) (fun _ => .error "Expecting value")
    ⟨none, some "eeg colon 5"⟩ "eeg colon 5" (fun f hf _ => nomatch hf) rfl
    (by decide) (.inl ⟨"Expecting value", rfl⟩)

/-- C9: when biomedicalData parses as valid JSON that is not a JSON object
(for example the number 5 or an array), the .get call of app.py line 82 raises
AttributeError, the catch-all handler of lines 103-105 turns it into HTTP 400
with an error field, and the response is not 500. -/
theorem c9_non_object_400 (sec : String → String)
    (infer : ImageFile → Except String ℚ) (jl : String → Except String JVal)
    (req : Request) (s : String) (v : JVal)
    (himg : ∀ f, req.imageFile = some f → f.filename ≠ "" → ∃ q, infer f = .ok q)
    (hs : req.biomedicalData = some s) (hne : s ≠ "")
    (hv : jl s = .ok v) (hobj : v.isObj = false) :
    (predict true sec infer jl req).1 = .err 400 (pyErrMsg .attributeError) := by
  obtain ⟨ir, ip, effs, himgok⟩ := imageStage_ok sec infer req.imageFile himg
  have hstage : bioStage v = .error .attributeError := by
    cases v <;> simp_all [JVal.isObj, bioStage]
  have hbio : bioStep jl req.biomedicalData =
      (.error (pyErrMsg .attributeError), [.parsedBio s]) := by
    rw [hs]; simp [bioStep, hne, hv, hstage]
  simp [predict, himgok, hbio]

/-- C9 witness: biomedicalData parsing to the JSON number 5. -/
theorem c9_non_object_400_witness :
    (predict true id (fun _ => .ok 0) (fun _ => .ok (.jnum 5))
        ⟨none, some "5"⟩).1 = .err 400 (pyErrMsg .attributeError) :=
  c9_non_object_400 id (fun _ => .ok 0) (fun _ => .ok (.jnum 5)) ⟨none, some "5"⟩
    "5" (.jnum 5) (fun f hf _ => nomatch hf) rfl (by decide) rfl rfl

/-- C10: an image part with an empty filename and a biomedicalData field equal
to the empty string are each treated exactly as an absent input: the handler
behaves identically to the request without that input, and with no other
input present the response carries null prediction fields and no error. -/
theorem c10_empty_inputs_skipped (sec : String → String)
    (infer : ImageFile → Except String ℚ) (jl : String → Except String JVal)
    (bytes : List Nat) (bio : Option String) (img : Option ImageFile) :
    predict true sec infer jl ⟨some ⟨"", bytes⟩, bio⟩ =
      predict true sec infer jl ⟨none, bio⟩ ∧
    predict true sec infer jl ⟨img, some ""⟩ =
      predict true sec infer jl ⟨img, none⟩ ∧
    (predict true sec infer jl ⟨some ⟨"", bytes⟩, none⟩).1 =
      .ok none none "No data provided for prediction." none ∧
    (predict true sec infer jl ⟨none, some ""⟩).1 =
      .ok none none "No data provided for prediction." none := by
  refine ⟨rfl, rfl, rfl, rfl⟩
